import Mathlib

/-!
Verification of the store-ops campaign pipeline: a shallow embedding of the
campaign transformation, batch processing, validation, filtering and summary
logic of `app/services/campaign_service.py` and the SKU/MRP resolution logic
of `app/services/akeneo_service.py`, with theorems settling the spec claims.

Modelling conventions:
- monetary values (Python floats) are rationals;
- PIM attribute data (Python `Any` from JSON) is the inductive `PyVal`;
- the remote product fetch (`AkeneoService.get_product`, an HTTP call) is a
  parameter `fetch : String → Option ProductDetails`, `Option.none` meaning
  the fetch raised;
- fallible Python functions return `Option`, a caught exception being `none`.
-/

namespace StoreOps

/-- The universe of PIM attribute data values: a JSON-ish payload as Python
sees it (`None`, a number, a string, or a list of asset codes). -/
inductive PyVal where
  | vNone
  | vNum (q : ℚ)
  | vStr (s : String)
  | vList (xs : List String)
deriving DecidableEq, Repr

/-- Python truthiness (`if not x:`) of an attribute value. -/
def pyTruthy : PyVal → Bool
  | PyVal.vNone => false
  | PyVal.vNum q => q != 0
  | PyVal.vStr s => s != ""
  | PyVal.vList xs => xs != []

/-- Value of a decimal digit character; `none` for a non-digit. -/
def digitVal (c : Char) : Option ℕ :=
  if '0' ≤ c ∧ c ≤ '9' then Option.some (c.toNat - 48) else Option.none

/-- Accumulating numeric value of a digit run; `none` on any non-digit. -/
def digitsValAux (acc : ℕ) : List Char → Option ℕ
  | [] => Option.some acc
  | c :: rest =>
    match digitVal c with
    | Option.some d => digitsValAux (acc * 10 + d) rest
    | Option.none => Option.none

/-- Numeric value of a non-empty all-digit character run; `none` otherwise. -/
def digitsVal : List Char → Option ℕ
  | [] => Option.none
  | cs => digitsValAux 0 cs

/-- Split a character list at a separator (semantics of Python `str.split`
on a one-character separator: the empty string yields one empty group). -/
def splitOnChar (sep : Char) : List Char → List (List Char)
  | [] => [[]]
  | c :: rest =>
    if c = sep then [] :: splitOnChar sep rest
    else
      match splitOnChar sep rest with
      | g :: gs => (c :: g) :: gs
      | [] => [[c]]

/-- Models Python `float(s)` on non-negative plain decimal literals (digit
runs with at most one decimal point); `none` models the ValueError raised on
a non-numeric string. -/
def strToRat (s : String) : Option ℚ :=
  match splitOnChar '.' s.toList with
  | [a] => (digitsVal a).map (fun n => (n : ℚ))
  | [a, b] =>
    match digitsVal a, digitsVal b with
    | Option.some i, Option.some f => Option.some ((i : ℚ) + (f : ℚ) / (10 : ℚ) ^ b.length)
    | _, _ => Option.none
  | _ => Option.none

/-- Models Python `float(v)`: succeeds on numbers and numeric strings, raises
(`none`) on `None`, lists and non-numeric strings. -/
def pyFloat : PyVal → Option ℚ
  | PyVal.vNum q => Option.some q
  | PyVal.vStr s => strToRat s
  | PyVal.vNone => Option.none
  | PyVal.vList _ => Option.none

/-- One locale/scope-qualified attribute value of a PIM product. Only the
`data` payload is ever read by the pricing path (locale, scope, linked_data,
reference_data_name, attribute_type and assets are carried but not consulted
by the modelled functions). -/
structure Value where
  data : PyVal
deriving DecidableEq, Repr

/-- A PIM product record (`ProductDetails`): identifier, family, parent and
the attribute-code → value-list mapping (a Python dict, modelled as an
association list with unique keys looked up by `List.lookup`). -/
structure ProductDetails where
  id : String
  family : String
  parent : Option String
  values : List (String × List Value)
deriving DecidableEq, Repr

/-- `AkeneoService.get_product_sku_mapping`: fetch the product; if the `sku`
attribute key is present with a non-empty value list, return its first value's
data (whatever it is); otherwise fall back to the literal product id. A fetch
failure is caught and yields Python `None` (`PyVal.vNone`). -/
def get_product_sku_mapping (fetch : String → Option ProductDetails)
    (product_id : String) : PyVal :=
  match fetch product_id with
  | Option.none => PyVal.vNone
  | Option.some product =>
    match product.values.lookup "sku" with
    | Option.some (v :: _) => v.data
    | _ => PyVal.vStr product_id

/-- The fixed ordered candidate attribute codes probed for an MRP. -/
def mrp_attributes : List String := ["mrp", "MRP", "maximum_retail_price", "list_price"]

/-- The probe loop of `get_product_mrp`: for the first candidate code whose
key is present with a non-empty value list and whose first value is not
`None`, attempt `float(value)` — a conversion failure raises, is caught by
the enclosing handler, and the whole call returns `none` (later candidates
are not probed). A candidate whose first value is `None` is skipped. -/
def mrpLoop (values : List (String × List Value)) : List String → Option ℚ
  | [] => Option.none
  | attr :: rest =>
    match values.lookup attr with
    | Option.some (v :: _) =>
      if v.data = PyVal.vNone then mrpLoop values rest else pyFloat v.data
    | _ => mrpLoop values rest

/-- `AkeneoService.get_product_mrp`: fetch the product and run the candidate
probe loop; a fetch failure is caught and yields `none`. -/
def get_product_mrp (fetch : String → Option ProductDetails)
    (product_id : String) : Option ℚ :=
  match fetch product_id with
  | Option.none => Option.none
  | Option.some product => mrpLoop product.values mrp_attributes

/-- The two configured campaign settings of `app/core/config.py`
(`DEFAULT_MOP_MULTIPLIER = 0.979`, `DEFAULT_COINS = 2000`). -/
structure Settings where
  DEFAULT_MOP_MULTIPLIER : ℚ
  DEFAULT_COINS : ℤ
deriving DecidableEq, Repr

/-- The default settings instance. -/
def settings : Settings := ⟨979 / 1000, 2000⟩

/-- A raw campaign row (`RawCampaignData`). The required fields and the
optional fields read by the modelled logic are kept; the remaining ~20
optional descriptive fields (slot, brand, funnel, impressions, ...) are
carried through the pipeline unchanged and never consulted, so they are
omitted from the embedding. -/
structure RawCampaignData where
  issue_type : String
  live_date : String
  segment : String
  end_date : String
  request_type : String
  product_id : String
  selling_price : ℚ
  preferred_landing_sku_id : Option String
  MRP : Option ℚ
deriving DecidableEq, Repr

/-- The enriched pricing record (`FalconFormattedData`). -/
structure FalconFormattedData where
  sku_id : String
  product_id : String
  MRP : ℚ
  MOP : ℚ
  selling_price : ℚ
  mop_cost : ℚ
  selling_price_cost : ℚ
  coins : ℤ
deriving DecidableEq, Repr

/-- Python truthiness of an `Optional[float]`: falsy when `None` or `0.0`. -/
def optFloatTruthy : Option ℚ → Bool
  | Option.none => false
  | Option.some q => q != 0

/-- Python truthiness of an `Optional[str]`: falsy when `None` or `""`. -/
def optStrTruthy : Option String → Bool
  | Option.none => false
  | Option.some s => s != ""

/-- `CampaignService.transform_to_falcon_format`. SKU resolution: the
preferred landing SKU if truthy, else the PIM SKU mapping, else the product
id. MRP resolution: the raw MRP if truthy (`if not mrp` — so a present 0.0
falls through), else the PIM MRP, else `selling_price * 1.5`. The record
constructor requires `sku_id` to be a string; a non-string resolved SKU
raises a validation error, which the handler turns into `none`. -/
def transform_to_falcon_format (fetch : String → Option ProductDetails)
    (raw_data : RawCampaignData) : Option FalconFormattedData :=
  let sku₁ : PyVal :=
    if optStrTruthy raw_data.preferred_landing_sku_id then
      PyVal.vStr (raw_data.preferred_landing_sku_id.getD "")
    else get_product_sku_mapping fetch raw_data.product_id
  let sku₂ : PyVal := if pyTruthy sku₁ then sku₁ else PyVal.vStr raw_data.product_id
  let mrp₁ : Option ℚ :=
    if optFloatTruthy raw_data.MRP then raw_data.MRP
    else get_product_mrp fetch raw_data.product_id
  let mrp₂ : ℚ :=
    if optFloatTruthy mrp₁ then mrp₁.getD 0 else raw_data.selling_price * (3 / 2)
  match sku₂ with
  | PyVal.vStr s =>
    Option.some ⟨s, raw_data.product_id, mrp₂, raw_data.selling_price,
      raw_data.selling_price, raw_data.selling_price * settings.DEFAULT_MOP_MULTIPLIER,
      raw_data.selling_price, settings.DEFAULT_COINS⟩
  | _ => Option.none

/-- One raw record paired with its enriched record (`ProcessedCampaignData`;
the wall-clock `processed_at` timestamp is not modelled). -/
structure ProcessedCampaignData where
  raw_data : RawCampaignData
  falcon_data : FalconFormattedData
deriving DecidableEq, Repr

/-- The batch result (`CampaignResponse`). -/
structure CampaignResponse where
  total_count : ℕ
  processed_count : ℕ
  failed_count : ℕ
  campaigns : List ProcessedCampaignData
deriving DecidableEq, Repr

/-- One iteration of the batch loop of `process_campaign_data`: a successful
transform appends the pairing, a failed one increments the failure count. -/
def processStep (fetch : String → Option ProductDetails)
    (acc : List ProcessedCampaignData × ℕ) (raw : RawCampaignData) :
    List ProcessedCampaignData × ℕ :=
  match transform_to_falcon_format fetch raw with
  | Option.some falcon => (acc.1 ++ [⟨raw, falcon⟩], acc.2)
  | Option.none => (acc.1, acc.2 + 1)

/-- `CampaignService.process_campaign_data`: drive the transform over the
batch, isolating per-record failures. -/
def process_campaign_data (fetch : String → Option ProductDetails)
    (raw_campaigns : List RawCampaignData) : CampaignResponse :=
  let result := raw_campaigns.foldl (processStep fetch) ([], 0)
  ⟨raw_campaigns.length, result.1.length, result.2, result.1⟩

/-- A Python `datetime` value as compared by the campaign code: a calendar
date plus a time-of-day in seconds (`sod`). `strptime` of a pure date pattern
yields midnight (`sod = 0`); `datetime.now()` carries the current time. -/
structure PyDateTime where
  year : ℕ
  month : ℕ
  day : ℕ
  sod : ℕ
deriving DecidableEq, Repr

/-- The `datetime` order: lexicographic on (year, month, day, time). -/
def dtLe (a b : PyDateTime) : Bool :=
  if a.year = b.year then
    if a.month = b.month then
      if a.day = b.day then decide (a.sod ≤ b.sod)
      else decide (a.day < b.day)
    else decide (a.month < b.month)
  else decide (a.year < b.year)

/-- Gregorian leap-year rule, as `datetime` validates dates. -/
def isLeapYear (y : ℕ) : Bool := (y % 4 == 0 && !(y % 100 == 0)) || y % 400 == 0

/-- Number of days in a month, as `datetime` validates dates. -/
def daysInMonth (y m : ℕ) : ℕ :=
  if m = 2 then (if isLeapYear y then 29 else 28)
  else if m = 4 ∨ m = 6 ∨ m = 9 ∨ m = 11 then 30
  else 31

/-- Models `datetime.strptime(s, "%d/%m/%Y")` on slash-separated numeric
components: three digit runs that form a valid calendar date, yielding
midnight of that date; `none` models the ValueError raised otherwise. -/
def parse_ddmmyyyy (s : String) : Option PyDateTime :=
  match splitOnChar '/' s.toList with
  | [d, m, y] =>
    match digitsVal d, digitsVal m, digitsVal y with
    | Option.some dn, Option.some mn, Option.some yn =>
      if 1 ≤ mn ∧ mn ≤ 12 ∧ 1 ≤ dn ∧ dn ≤ daysInMonth yn mn ∧ 1 ≤ yn ∧ yn ≤ 9999 then
        Option.some ⟨yn, mn, dn, 0⟩
      else Option.none
    | _, _, _ => Option.none
  | _ => Option.none

/-- `CampaignService.validate_campaign_data`: collect every rule violation.
`if not raw.selling_price or raw.selling_price <= 0` is mirrored as the
disjunction of the zero test and the order test; the date block parses both
dates and reports a single format error if either raises, else an ordering
error when `end_date <= live_date`. -/
def validate_campaign_data (raw_data : RawCampaignData) : List String :=
  (if raw_data.product_id = "" then ["Product ID is required"] else []) ++
  (if raw_data.selling_price = 0 ∨ raw_data.selling_price ≤ 0 then
    ["Valid selling price is required"] else []) ++
  (if raw_data.live_date = "" then ["Live date is required"] else []) ++
  (if raw_data.end_date = "" then ["End date is required"] else []) ++
  (match parse_ddmmyyyy raw_data.live_date, parse_ddmmyyyy raw_data.end_date with
   | Option.some live, Option.some endd =>
     if dtLe endd live then ["End date must be after live date"] else []
   | _, _ => ["Invalid date format. Expected DD/MM/YYYY"])

/-- `CampaignService.filter_active_campaigns`: keep a record when both dates
parse and `live_date <= now <= end_date`; a record whose dates raise is
silently skipped. `datetime.now()` is the parameter `now`. -/
def filter_active_campaigns (now : PyDateTime)
    (campaigns : List RawCampaignData) : List RawCampaignData :=
  campaigns.filter fun campaign =>
    match parse_ddmmyyyy campaign.live_date, parse_ddmmyyyy campaign.end_date with
    | Option.some live, Option.some endd => dtLe live now && dtLe now endd
    | _, _ => false

/-- A value of the summary dict: Python mixes ints, floats, string lists and
a per-type count sub-dict in one dictionary. -/
inductive SummaryValue where
  | num (q : ℚ)
  | nat (n : ℕ)
  | strs (l : List String)
  | counts (m : List (String × ℕ))
deriving DecidableEq, Repr

/-- Python `min` over a non-empty list (the empty case is never reached). -/
def minList : List ℚ → ℚ
  | [] => 0
  | x :: xs => xs.foldl min x

/-- Python `max` over a non-empty list (the empty case is never reached). -/
def maxList : List ℚ → ℚ
  | [] => 0
  | x :: xs => xs.foldl max x

/-- `CampaignService.get_campaign_summary`: the summary dict as an ordered
key/value list. Python's `set` iteration order is unspecified; the distinct
campaign types are modelled as `List.dedup` of the type list. -/
def get_campaign_summary (campaigns : List ProcessedCampaignData) :
    List (String × SummaryValue) :=
  match campaigns with
  | [] => [("total_campaigns", SummaryValue.nat 0)]
  | _ :: _ =>
    let selling_prices := campaigns.map fun c => c.falcon_data.selling_price
    let mrps := campaigns.map fun c => c.falcon_data.MRP
    let campaign_types := campaigns.map fun c => c.raw_data.issue_type
    [("total_campaigns", SummaryValue.nat campaigns.length),
     ("campaign_types", SummaryValue.strs campaign_types.dedup),
     ("avg_selling_price", SummaryValue.num (selling_prices.sum / selling_prices.length)),
     ("min_selling_price", SummaryValue.num (minList selling_prices)),
     ("max_selling_price", SummaryValue.num (maxList selling_prices)),
     ("avg_mrp", SummaryValue.num (mrps.sum / mrps.length)),
     ("total_potential_revenue", SummaryValue.num selling_prices.sum),
     ("campaign_type_counts", SummaryValue.counts
        (campaign_types.dedup.map fun t => (t, campaign_types.count t)))]

/-! ## Theorems -/

/-- Batch loop invariant: each record adds exactly one either to the
processed list or to the failure count. -/
theorem processFold_counts (fetch : String → Option ProductDetails)
    (raws : List RawCampaignData) :
    ∀ acc : List ProcessedCampaignData × ℕ,
      (raws.foldl (processStep fetch) acc).1.length + (raws.foldl (processStep fetch) acc).2 =
        acc.1.length + acc.2 + raws.length := by
  induction raws with
  | nil => intro acc; simp
  | cons r rest ih =>
    intro acc
    simp only [List.foldl_cons]
    rw [ih]
    cases htr : transform_to_falcon_format fetch r <;>
      simp [processStep, htr] <;> omega

/-- C1: for every list of raw campaign records, including the empty list,
process_campaign_data returns processedCount + failedCount = totalCount, and
totalCount equals the length of the input list. -/
theorem process_campaign_data_counts (fetch : String → Option ProductDetails)
    (raws : List RawCampaignData) :
    (process_campaign_data fetch raws).processed_count +
        (process_campaign_data fetch raws).failed_count =
      (process_campaign_data fetch raws).total_count ∧
    (process_campaign_data fetch raws).total_count = raws.length := by
  unfold process_campaign_data
  exact ⟨by simpa using processFold_counts fetch raws ([], 0), rfl⟩

/-- The raw record of the C2 scenario: productId "P1", sellingPrice 100,
mrp and preferredLandingSkuId absent. -/
def rawP1 : RawCampaignData :=
  ⟨"DOD", "01/06/2025", "SEG", "30/06/2025", "SP Change", "P1", 100, Option.none, Option.none⟩

/-- C2: when the PIM SKU lookup and the PIM MRP lookup both yield null, the
P1 scenario record enriches to skuId "P1", MRP 150 (= 100 × 1.5), MOP 100,
sellingPrice 100, mopCost 97.9 (= 100 × 0.979), sellingPriceCost 100 and
coins 2000. -/
theorem transform_P1_scenario (fetch : String → Option ProductDetails)
    (hsku : get_product_sku_mapping fetch "P1" = PyVal.vNone)
    (hmrp : get_product_mrp fetch "P1" = Option.none) :
    transform_to_falcon_format fetch rawP1 =
      Option.some ⟨"P1", "P1", 150, 100, 100, 979 / 10, 100, 2000⟩ := by
  simp [transform_to_falcon_format, rawP1, optStrTruthy, optFloatTruthy, pyTruthy,
    hsku, hmrp, settings]
  norm_num

/-- Witness for the C2 theorem: the all-failing fetch makes both PIM lookups
yield null. -/
theorem transform_P1_scenario_witness :
    transform_to_falcon_format (fun _ => Option.none) rawP1 =
      Option.some ⟨"P1", "P1", 150, 100, 100, 979 / 10, 100, 2000⟩ :=
  transform_P1_scenario (fun _ => Option.none) rfl rfl

/-- C9: the summary of the empty batch is exactly the single-key mapping
total_campaigns = 0; no other key is present. -/
theorem get_campaign_summary_empty :
    get_campaign_summary [] = [("total_campaigns", SummaryValue.nat 0)] := rfl

/-- The SKU fallback step of the transform: a truthy resolved SKU is a
non-empty string when it is a string at all, and the fallback is the product
id itself. -/
theorem sku_fallback_nonempty (x : PyVal) (pid : String) (hpid : pid ≠ "") (s : String)
    (hs : (if pyTruthy x then x else PyVal.vStr pid) = PyVal.vStr s) : s ≠ "" := by
  by_cases hx : pyTruthy x
  · rw [if_pos hx] at hs
    subst hs
    simpa [pyTruthy] using hx
  · rw [if_neg hx] at hs
    injection hs with he
    exact he ▸ hpid

/-- C3: for every raw record with non-empty productId and every possible
behaviour of the PIM fetch, whenever the transform returns a record, that
record's skuId is non-empty. (The record's MRP is a total numeric field of
the result type, so its non-nullness is definitional.) -/
theorem transform_sku_nonempty (fetch : String → Option ProductDetails)
    (raw : RawCampaignData) (fd : FalconFormattedData)
    (hpid : raw.product_id ≠ "")
    (h : transform_to_falcon_format fetch raw = Option.some fd) :
    fd.sku_id ≠ "" := by
  simp only [transform_to_falcon_format] at h
  split at h
  case _ s heq =>
    injection h with h2
    subst h2
    exact sku_fallback_nonempty _ _ hpid _ heq
  case _ => exact absurd h (by simp)

/-- Witness for the C3 theorem at the P1 record with the all-failing fetch. -/
theorem transform_sku_nonempty_witness :
    (⟨"P1", "P1", 150, 100, 100, 979 / 10, 100, 2000⟩ : FalconFormattedData).sku_id ≠ "" :=
  transform_sku_nonempty (fun _ => Option.none) rawP1
    ⟨"P1", "P1", 150, 100, 100, 979 / 10, 100, 2000⟩ (by decide)
    (by simp [transform_to_falcon_format, rawP1, optStrTruthy, optFloatTruthy, pyTruthy,
        get_product_sku_mapping, get_product_mrp, settings]; norm_num)

/-- A raw record whose mrp field is present but equal to 0. -/
def rawMrpZero : RawCampaignData :=
  ⟨"DOD", "01/06/2025", "SEG", "30/06/2025", "SP Change", "P4", 100, Option.none, Option.some 0⟩

/-- A PIM product whose mrp attribute carries the numeric value 42. -/
def prodMrp42 : ProductDetails := ⟨"P4", "fam", Option.none, [("mrp", [⟨PyVal.vNum 42⟩])]⟩

/-- C4 counterexample: a raw record with mrp present (= 0) is enriched with
MRP 42 taken from the PIM MRP lookup — `if not mrp` treats a present 0.0 as
absent, so the output MRP is not raw.mrp and the lookup is consulted. -/
theorem transform_mrp_zero_cex :
    rawMrpZero.MRP = Option.some 0 ∧
    (transform_to_falcon_format (fun _ => Option.some prodMrp42) rawMrpZero).map
        FalconFormattedData.MRP = Option.some 42 := by
  refine ⟨rfl, ?_⟩
  simp [transform_to_falcon_format, rawMrpZero, optStrTruthy, optFloatTruthy, pyTruthy,
    get_product_sku_mapping, get_product_mrp, prodMrp42, mrpLoop, mrp_attributes, pyFloat,
    List.lookup, settings]

/-- C4 (amended): for every raw record whose mrp field is present and
nonzero, any record the transform returns carries MRP exactly raw.mrp, for
every behaviour of the PIM fetch — neither the PIM MRP lookup nor the
sellingPrice × 1.5 fallback influences the result. -/
theorem transform_mrp_present_nonzero (fetch : String → Option ProductDetails)
    (raw : RawCampaignData) (v : ℚ) (fd : FalconFormattedData)
    (hm : raw.MRP = Option.some v) (hv : v ≠ 0)
    (h : transform_to_falcon_format fetch raw = Option.some fd) :
    fd.MRP = v := by
  simp only [transform_to_falcon_format, hm, optFloatTruthy, bne_iff_ne, ne_eq, hv,
    not_false_eq_true, if_true, Option.getD_some, decide_not] at h
  split at h
  case _ s heq =>
    injection h with h2
    subst h2
    rfl
  case _ => exact absurd h (by simp)

/-- A raw record whose mrp field is present and equal to 50. -/
def rawMrp50 : RawCampaignData :=
  ⟨"DOD", "01/06/2025", "SEG", "30/06/2025", "SP Change", "P5", 100, Option.none, Option.some 50⟩

/-- Witness for the amended C4 theorem at a record with mrp 50. -/
theorem transform_mrp_present_nonzero_witness :
    (⟨"P5", "P5", 50, 100, 100, 979 / 10, 100, 2000⟩ : FalconFormattedData).MRP = 50 :=
  transform_mrp_present_nonzero (fun _ => Option.none) rawMrp50 50
    ⟨"P5", "P5", 50, 100, 100, 979 / 10, 100, 2000⟩ rfl (by norm_num)
    (by simp [transform_to_falcon_format, rawMrp50, optStrTruthy, optFloatTruthy, pyTruthy,
        get_product_sku_mapping, settings]; norm_num)

/-- A PIM product whose sku attribute's first value is null. -/
def prodSkuNone : ProductDetails := ⟨"P9", "fam", Option.none, [("sku", [⟨PyVal.vNone⟩])]⟩

/-- C5 counterexample: the product fetch succeeds, yet resolveSkuId returns
null — the sku attribute's first value (here null) is returned as-is, so
"returns null only on fetch failure" and "otherwise a non-null identifier"
both fail on the code. -/
theorem sku_mapping_null_on_success_cex :
    (fun _ => Option.some prodSkuNone : String → Option ProductDetails) "P9" =
        Option.some prodSkuNone ∧
    get_product_sku_mapping (fun _ => Option.some prodSkuNone) "P9" = PyVal.vNone := by
  refine ⟨rfl, ?_⟩
  rfl

/-- C5 (amended): resolveSkuId never raises; it returns null exactly when
the fetch fails or when the sku attribute is present with a non-empty value
list whose first value is itself null; on a successful fetch it returns the
sku attribute's first value whenever the sku key is present with a non-empty
value list (even if that value is null or empty), and the literal productId
otherwise. -/
theorem get_product_sku_mapping_characterization
    (fetch : String → Option ProductDetails) (pid : String) :
    (get_product_sku_mapping fetch pid = PyVal.vNone ↔
      fetch pid = Option.none ∨
        ∃ p v rest, fetch pid = Option.some p ∧
          p.values.lookup "sku" = Option.some (v :: rest) ∧ v.data = PyVal.vNone) ∧
    ∀ p, fetch pid = Option.some p →
      get_product_sku_mapping fetch pid =
        (match p.values.lookup "sku" with
         | Option.some (v :: _) => v.data
         | _ => PyVal.vStr pid) := by
  unfold get_product_sku_mapping
  cases hf : fetch pid with
  | none => simp [hf]
  | some p =>
    cases hl : p.values.lookup "sku" with
    | none =>
      refine ⟨?_, ?_⟩
      · simp [hf, hl]
      · intro q hq
        injection hq with hq
        subst hq
        simp [hl]
    | some l =>
      cases l with
      | nil =>
        refine ⟨?_, ?_⟩
        · simp [hf, hl]
        · intro q hq
          injection hq with hq
          subst hq
          simp [hl]
      | cons v tl =>
        refine ⟨?_, ?_⟩
        · simp only [hf, hl]
          constructor
          · intro hd
            exact Or.inr ⟨p, v, tl, rfl, hl, hd⟩
          · rintro (hbad | ⟨q, w, ws, hq, hw, hd⟩)
            · exact absurd hbad (by simp)
            · injection hq with hq
              subst hq
              rw [hl] at hw
              injection hw with hw
              cases hw
              exact hd
        · intro q hq
          injection hq with hq
          subst hq
          simp [hl]

/-- Spec-side description for the amended C6: the first candidate attribute
code whose key is present with a non-empty value list and whose first value
is non-null, yielding that first value. -/
def firstCandidateData (values : List (String × List Value)) : List String → Option PyVal
  | [] => Option.none
  | attr :: rest =>
    match values.lookup attr with
    | Option.some (v :: _) =>
      if v.data = PyVal.vNone then firstCandidateData values rest else Option.some v.data
    | _ => firstCandidateData values rest

/-- The MRP probe loop computes the float conversion of the first present,
non-null candidate value — a failed conversion aborts as `none`. -/
theorem mrpLoop_eq_firstCandidate (values : List (String × List Value)) :
    ∀ attrs : List String,
      mrpLoop values attrs = (firstCandidateData values attrs).bind pyFloat := by
  intro attrs
  induction attrs with
  | nil => rfl
  | cons a rest ih =>
    simp only [mrpLoop, firstCandidateData]
    cases values.lookup a with
    | none => exact ih
    | some l =>
      cases l with
      | nil => exact ih
      | cons v tl =>
        by_cases hv : v.data = PyVal.vNone
        · simp [hv, ih]
        · simp [hv]

/-- A PIM product whose mrp attribute is a non-numeric string and whose MRP
attribute carries the numeric value 5. -/
def prodMrpBad : ProductDetails :=
  ⟨"P6", "fam", Option.none, [("mrp", [⟨PyVal.vStr "abc"⟩]), ("MRP", [⟨PyVal.vNum 5⟩])]⟩

/-- C6 counterexample: the later candidate MRP holds the present, non-null
numeric value 5, yet resolveMrp returns null — the first candidate's
non-numeric value makes float() raise and the whole probe abort, instead of
continuing to the next candidate as the claim describes. -/
theorem mrp_nonnumeric_cex :
    prodMrpBad.values.lookup "MRP" = Option.some [⟨PyVal.vNum 5⟩] ∧
    get_product_mrp (fun _ => Option.some prodMrpBad) "P6" = Option.none :=
  ⟨by decide, by decide⟩

/-- C6 (amended): resolveMrp probes mrp, MRP, maximum_retail_price,
list_price in that order for the first candidate whose key is present with a
non-empty value list and non-null first value, and returns its float
conversion; it returns null when the conversion fails (without probing later
candidates), when no candidate has a present non-null first value, or when
the product fetch fails. -/
theorem get_product_mrp_characterization (fetch : String → Option ProductDetails)
    (pid : String) :
    get_product_mrp fetch pid =
      (fetch pid).bind fun p => (firstCandidateData p.values mrp_attributes).bind pyFloat := by
  unfold get_product_mrp
  cases hf : fetch pid with
  | none => rfl
  | some p => simpa using mrpLoop_eq_firstCandidate p.values mrp_attributes

/-- Midnight of 15/06/2025, the "now" of the C7 scenario. -/
def nowJun15 : PyDateTime := ⟨2025, 6, 15, 0⟩

/-- A record live 01/06/2025 through 30/06/2025. -/
def rawActive : RawCampaignData :=
  ⟨"DOD", "01/06/2025", "SEG", "30/06/2025", "SP Change", "PA", 100, Option.none, Option.none⟩

/-- A record whose window ended 14/06/2025. -/
def rawEnded : RawCampaignData :=
  ⟨"DOD", "01/06/2025", "SEG", "14/06/2025", "SP Change", "PB", 100, Option.none, Option.none⟩

/-- C7: filterActive keeps a record iff both its dates parse under
DD/MM/YYYY and parsed liveDate ≤ now ≤ parsed endDate (inclusive both ends);
unparseable records are silently excluded. With now = 15/06/2025, the
01/06–30/06 record is kept and the record ending 14/06 is excluded. -/
theorem filter_active_campaigns_spec :
    (∀ (now : PyDateTime) (campaigns : List RawCampaignData) (r : RawCampaignData),
       r ∈ filter_active_campaigns now campaigns ↔
         r ∈ campaigns ∧ ∃ live endd,
           parse_ddmmyyyy r.live_date = Option.some live ∧
           parse_ddmmyyyy r.end_date = Option.some endd ∧
           dtLe live now = true ∧ dtLe now endd = true) ∧
    filter_active_campaigns nowJun15 [rawActive, rawEnded] = [rawActive] := by
  constructor
  · intro now campaigns r
    rw [filter_active_campaigns, List.mem_filter]
    rcases hl : parse_ddmmyyyy r.live_date with _ | live <;>
      rcases he : parse_ddmmyyyy r.end_date with _ | endd <;>
        simp [hl, he, Bool.and_eq_true]
  · decide

/-- C8: for every raw record with empty productId, zero sellingPrice and
empty dates, validate collects all four required-field errors (no
short-circuiting), so the error list has size at least 3. -/
theorem validate_required_fields (raw : RawCampaignData)
    (h1 : raw.product_id = "") (h2 : raw.selling_price = 0)
    (h3 : raw.live_date = "") (h4 : raw.end_date = "") :
    "Product ID is required" ∈ validate_campaign_data raw ∧
    "Valid selling price is required" ∈ validate_campaign_data raw ∧
    "Live date is required" ∈ validate_campaign_data raw ∧
    "End date is required" ∈ validate_campaign_data raw ∧
    3 ≤ (validate_campaign_data raw).length := by
  simp [validate_campaign_data, h1, h2, h3, h4, parse_ddmmyyyy, splitOnChar]

/-- The all-empty raw record. -/
def rawEmpty : RawCampaignData := ⟨"", "", "", "", "", "", 0, Option.none, Option.none⟩

/-- Witness for the C8 theorem at the all-empty record. -/
theorem validate_required_fields_witness :
    "Product ID is required" ∈ validate_campaign_data rawEmpty ∧
    "Valid selling price is required" ∈ validate_campaign_data rawEmpty ∧
    "Live date is required" ∈ validate_campaign_data rawEmpty ∧
    "End date is required" ∈ validate_campaign_data rawEmpty ∧
    3 ≤ (validate_campaign_data rawEmpty).length :=
  validate_required_fields rawEmpty rfl rfl rfl rfl

/-- Mapping a tagging function over a list and projecting the tag returns
the list. -/
theorem map_fst_pair (l : List String) (f : String → ℕ) :
    (l.map fun t => (t, f t)).map Prod.fst = l := by
  induction l with
  | nil => rfl
  | cons a tl ih => simp [ih]

/-- Mapping a tagging function over a list and projecting the payload maps
the function. -/
theorem map_snd_pair (l : List String) (f : String → ℕ) :
    (l.map fun t => (t, f t)).map Prod.snd = l.map f := by
  induction l with
  | nil => rfl
  | cons a tl ih => simp [ih]

/-- C10: for every non-empty batch, the summary's campaign_type_counts
mapping has as keys exactly the distinct issue_type values of the input
(each once), its counts sum to total_campaigns, and total_campaigns is the
length of the input list. -/
theorem get_campaign_summary_type_counts (campaigns : List ProcessedCampaignData)
    (h : campaigns ≠ []) :
    ∃ m, (get_campaign_summary campaigns).lookup "campaign_type_counts" =
        Option.some (SummaryValue.counts m) ∧
      (m.map Prod.fst).Nodup ∧
      (∀ t, t ∈ m.map Prod.fst ↔ t ∈ campaigns.map fun c => c.raw_data.issue_type) ∧
      (m.map Prod.snd).sum = campaigns.length ∧
      (get_campaign_summary campaigns).lookup "total_campaigns" =
        Option.some (SummaryValue.nat campaigns.length) := by
  cases campaigns with
  | nil => exact absurd rfl h
  | cons c rest =>
    refine ⟨(((c :: rest).map fun x => x.raw_data.issue_type).dedup).map
        (fun t => (t, ((c :: rest).map fun x => x.raw_data.issue_type).count t)),
      ?_, ?_, ?_, ?_, ?_⟩
    · rfl
    · rw [map_fst_pair]
      exact List.nodup_dedup _
    · intro t
      rw [map_fst_pair]
      exact List.mem_dedup
    · rw [map_snd_pair, List.sum_map_count_dedup_eq_length, List.length_map]
    · rfl

/-- A one-element batch built from the P1 record. -/
def processedOne : ProcessedCampaignData :=
  ⟨rawP1, ⟨"P1", "P1", 150, 100, 100, 979 / 10, 100, 2000⟩⟩

/-- Witness for the C10 theorem at a one-element batch. -/
theorem get_campaign_summary_type_counts_witness :
    ∃ m, (get_campaign_summary [processedOne]).lookup "campaign_type_counts" =
        Option.some (SummaryValue.counts m) ∧
      (m.map Prod.fst).Nodup ∧
      (∀ t, t ∈ m.map Prod.fst ↔ t ∈ [processedOne].map fun c => c.raw_data.issue_type) ∧
      (m.map Prod.snd).sum = [processedOne].length ∧
      (get_campaign_summary [processedOne]).lookup "total_campaigns" =
        Option.some (SummaryValue.nat [processedOne].length) :=
  get_campaign_summary_type_counts [processedOne] (by simp)

end StoreOps
